import Mathlib

/-
Verification development for the beam-analysis backend
(`engineering-webapp/backend/models/beam_models.py`,
`engineering-webapp/backend/app/main.py`) and the configuration client
(`client/python/mcp_client.py`).

Modelling conventions:
* Python floats are modelled as rationals (`ℚ`); all comparisons in the
  source are order comparisons, which ℚ models exactly.
* A pydantic model construction is modelled as a function returning
  `Except String T`: field constraints and `@validator` methods run in
  field-declaration order, and the first failure is the error returned.
* An `Optional` field that a caller may omit is modelled as
  `Option (Option ℚ)`: `none` = field omitted (the default is used and,
  because pydantic validators default to `always=False`, the custom
  validator does NOT run), `some none` = the caller explicitly supplied
  `None` (the validator runs on `None`; range constraints such as `gt`
  are skipped for `None` on an `Optional` field), `some (some v)` = the
  caller supplied the value `v` (range constraints and validators run).
-/

/-! ## Enums (`beam_models.py` lines 6-34) -/

inductive BeamType where
  | simplySupported
  | cantilever
  | fixedFixed
  | fixedPinned
  | continuous
deriving DecidableEq, Repr

inductive SupportType where
  | pin
  | roller
  | fixed
deriving DecidableEq, Repr

inductive CrossSectionType where
  | rectangular
  | circular
  | iBeam
  | custom
deriving DecidableEq, Repr

inductive Direction where
  | up
  | down
  | clockwise
  | counterclockwise
deriving DecidableEq, Repr

/-! ## CrossSection (`beam_models.py` lines 36-60)

`width`, `height`, `diameter` are `Optional[float] = Field(None, gt=0)`
with one `@validator` each.  Because the validators are declared without
`always=True`, pydantic does not run them when the field is omitted and
the default `None` is used; they only run on values the caller actually
supplies (including an explicit `None`). -/

structure CrossSection where
  type : CrossSectionType
  width : Option ℚ
  height : Option ℚ
  diameter : Option ℚ
  custom_properties : Option (List (String × ℚ))
deriving DecidableEq, Repr

/-- One dimension field of `CrossSection`: the `gt=0` constraint on a
supplied numeric value, then the `validate_width` / `validate_height` /
`validate_diameter` body (`raise ValueError` when the value is `None`
and the cross-section type requires this dimension). -/
def checkDim (required : Bool) (msg : String) (val : Option (Option ℚ)) :
    Except String (Option ℚ) :=
  match val with
  | none => Except.ok none
  | some none => if required then Except.error msg else Except.ok none
  | some (some v) =>
      if v ≤ 0 then Except.error "ensure this value is greater than 0"
      else Except.ok (some v)

/-- Construction of `CrossSection`, fields validated in declaration
order: `type`, `width`, `height`, `diameter`, `custom_properties`. -/
def mkCrossSection (ty : CrossSectionType)
    (width height diameter : Option (Option ℚ))
    (custom_properties : Option (List (String × ℚ)) := none) :
    Except String CrossSection := do
  let w ← checkDim (ty = CrossSectionType.rectangular)
      "Width is required for rectangular cross section" width
  let h ← checkDim (ty = CrossSectionType.rectangular)
      "Height is required for rectangular cross section" height
  let d ← checkDim (ty = CrossSectionType.circular)
      "Diameter is required for circular cross section" diameter
  Except.ok ⟨ty, w, h, d, custom_properties⟩

/-! ## Material and BeamProperties (`beam_models.py` lines 62-76) -/

structure Material where
  name : String
  density : ℚ
  yield_strength : ℚ
deriving DecidableEq, Repr

def mkMaterial (name : String) (density yield_strength : ℚ) :
    Except String Material :=
  if density ≤ 0 then Except.error "ensure this value is greater than 0"
  else if yield_strength ≤ 0 then Except.error "ensure this value is greater than 0"
  else Except.ok ⟨name, density, yield_strength⟩

structure BeamProperties where
  id : String
  name : String
  length : ℚ
  elastic_modulus : ℚ
  moment_of_inertia : ℚ
  cross_section : CrossSection
  material : Material
deriving DecidableEq, Repr

def mkBeamProperties (id name : String) (length elastic_modulus moment_of_inertia : ℚ)
    (cross_section : CrossSection) (material : Material) :
    Except String BeamProperties :=
  if length ≤ 0 then Except.error "ensure this value is greater than 0"
  else if elastic_modulus ≤ 0 then Except.error "ensure this value is greater than 0"
  else if moment_of_inertia ≤ 0 then Except.error "ensure this value is greater than 0"
  else Except.ok ⟨id, name, length, elastic_modulus, moment_of_inertia, cross_section, material⟩

/-! ## Support (`beam_models.py` lines 78-104) -/

structure SupportReactions where
  vertical : Bool
  horizontal : Bool
  moment : Bool
deriving DecidableEq, Repr

/-- `Support.validate_reactions` (`beam_models.py` lines 89-104): the
caller-supplied flags `v` are overwritten according to the support
type.  In the source the three branches cover the three members of
`SupportType`; the fall-through (support type missing from `values`)
can only happen when the `type` field itself failed, in which case the
whole construction fails anyway. -/
def validate_reactions (support_type : SupportType) (v : SupportReactions) :
    SupportReactions :=
  match support_type with
  | SupportType.pin => ⟨true, true, false⟩
  | SupportType.roller => ⟨true, false, false⟩
  | SupportType.fixed => ⟨true, true, true⟩

structure Support where
  position : ℚ
  type : SupportType
  reactions : SupportReactions
deriving DecidableEq, Repr

/-- Construction of `Support`: `position` has `ge=0`; the `reactions`
field is rewritten by `validate_reactions`. -/
def mkSupport (position : ℚ) (ty : SupportType) (reactions : SupportReactions) :
    Except String Support :=
  if position < 0 then Except.error "ensure this value is greater than or equal to 0"
  else Except.ok ⟨position, ty, validate_reactions ty reactions⟩

/-! ## SupportConditions (`beam_models.py` lines 106-127) -/

structure SupportConditions where
  type : BeamType
  supports : List Support
deriving DecidableEq, Repr

/-- `SupportConditions.validate_supports` (`beam_models.py` lines
110-127).  The source indexes `v[0]` only under the cantilever branch,
where the count check has already forced `len(v) == 1`; the `none`
branch of `head?` is therefore unreachable there. -/
def validate_supports (beam_type : BeamType) (v : List Support) :
    Except String (List Support) :=
  if beam_type = BeamType.simplySupported ∧ v.length ≠ 2 then
    Except.error "Simply supported beam requires exactly 2 supports"
  else if beam_type = BeamType.cantilever ∧ v.length ≠ 1 then
    Except.error "Cantilever beam requires exactly 1 support"
  else if beam_type = BeamType.fixedFixed ∧ v.length ≠ 2 then
    Except.error "Fixed-fixed beam requires exactly 2 supports"
  else if beam_type = BeamType.cantilever then
    match v.head? with
    | some s =>
        if s.type ≠ SupportType.fixed then
          Except.error "Cantilever beam requires a fixed support"
        else Except.ok v
    | none => Except.ok v
  else Except.ok v

/-- Construction of `SupportConditions`: the `supports` field carries
`min_items=1`, checked before the custom validator. -/
def mkSupportConditions (ty : BeamType) (supports : List Support) :
    Except String SupportConditions :=
  if supports.length < 1 then
    Except.error "ensure this value has at least 1 items"
  else
    match validate_supports ty supports with
    | Except.ok s => Except.ok ⟨ty, s⟩
    | Except.error e => Except.error e

/-! ## Loads (`beam_models.py` lines 129-162)

The `Load` union is modelled as a closed inductive with one case per
kind.  Note on `magnitude: float = Field(..., ne=0)` in `PointLoad` and
`MomentLoad`: `ne` is not one of pydantic's recognized `Field`
constraint keywords (neither v1 nor v2 has it); it is stored as extra
schema metadata and never enforced, so a zero magnitude is accepted by
the running code.  The constructors below reproduce that behaviour. -/

inductive Load where
  | point (magnitude position : ℚ) (direction : Direction) (angle : ℚ)
  | distributed (start_magnitude end_magnitude start_position end_position : ℚ)
      (direction : Direction)
  | moment (magnitude position : ℚ) (direction : Direction)
deriving DecidableEq, Repr

/-- Construction of `PointLoad`: `position` has `ge=0`, `angle` has
`ge=0, le=360`; the `ne=0` on `magnitude` is inert (see above). -/
def mkPointLoad (magnitude position : ℚ) (direction : Direction) (angle : ℚ) :
    Except String Load :=
  if position < 0 then Except.error "ensure this value is greater than or equal to 0"
  else if angle < 0 then Except.error "ensure this value is greater than or equal to 0"
  else if angle > 360 then Except.error "ensure this value is less than or equal to 360"
  else Except.ok (Load.point magnitude position direction angle)

/-- Construction of `DistributedLoad`: `start_position` and
`end_position` have `ge=0`, then `validate_positions`
(`beam_models.py` lines 145-150) requires `end_position >
start_position`. -/
def mkDistributedLoad (start_magnitude end_magnitude start_position end_position : ℚ)
    (direction : Direction) : Except String Load :=
  if start_position < 0 then Except.error "ensure this value is greater than or equal to 0"
  else if end_position < 0 then Except.error "ensure this value is greater than or equal to 0"
  else if end_position ≤ start_position then
    Except.error "End position must be greater than start position"
  else Except.ok (Load.distributed start_magnitude end_magnitude start_position
      end_position direction)

/-- Construction of `MomentLoad`: `position` has `ge=0`; the `ne=0` on
`magnitude` is inert (see above). -/
def mkMomentLoad (magnitude position : ℚ) (direction : Direction) :
    Except String Load :=
  if position < 0 then Except.error "ensure this value is greater than or equal to 0"
  else Except.ok (Load.moment magnitude position direction)

/-- The `position` attribute probed by `hasattr(load, 'position')` in
`AnalysisRequest.validate_load_positions`: `PointLoad` and `MomentLoad`
have it, `DistributedLoad` does not (it has `start_position` and
`end_position`). -/
def posAttr : Load → Option ℚ
  | Load.point _ p _ _ => some p
  | Load.moment _ p _ => some p
  | Load.distributed _ _ _ _ _ => none

/-- The `end_position` attribute probed by
`hasattr(load, 'end_position')`: only `DistributedLoad` has it. -/
def endPosAttr : Load → Option ℚ
  | Load.distributed _ _ _ ep _ => some ep
  | _ => none

/-! ## AnalysisOptions (`beam_models.py` lines 164-171)

`number_of_points: int = Field(100, ge=10, le=1000)` is not `Optional`,
so a supplied value must lie in range; omitting it uses the default 100.
`safety_factor: Optional[float] = Field(1.5, ge=1.0)` is `Optional`:
omitting it stores 1.5, an explicit `None` is allowed (range constraints
are skipped for `None`), and a supplied number must be ≥ 1.  The four
`include_*` booleans carry no constraints and are not modelled. -/

structure AnalysisOptions where
  number_of_points : ℤ
  safety_factor : Option ℚ
deriving DecidableEq, Repr

def mkAnalysisOptions (number_of_points : Option ℤ)
    (safety_factor : Option (Option ℚ)) : Except String AnalysisOptions :=
  let n := number_of_points.getD 100
  if n < 10 then Except.error "ensure this value is greater than or equal to 10"
  else if n > 1000 then Except.error "ensure this value is less than or equal to 1000"
  else
    match safety_factor with
    | none => Except.ok ⟨n, some (3 / 2)⟩
    | some none => Except.ok ⟨n, none⟩
    | some (some v) =>
        if v < 1 then Except.error "ensure this value is greater than or equal to 1.0"
        else Except.ok ⟨n, some v⟩

/-! ## AnalysisRequest (`beam_models.py` lines 173-202)

The `timestamp` field has `default_factory=datetime.now`; it is modelled
as an integer the constructor receives, since the embedding has no
clock.  Fields are validated in declaration order (`beam`, then
`supports` with `validate_support_positions`, then `loads` with
`min_items=1` and `validate_load_positions`). -/

/-- `AnalysisRequest.validate_support_positions` (`beam_models.py`
lines 194-202), modelled as a pass/fail check (the source returns the
list unchanged on success). -/
def validate_support_positions (beam_length : ℚ) : List Support → Except String Unit
  | [] => Except.ok ()
  | s :: rest =>
      if s.position > beam_length then
        Except.error "Support position exceeds beam length"
      else validate_support_positions beam_length rest

/-- `AnalysisRequest.validate_load_positions` (`beam_models.py` lines
182-192): for each load, first the `position` attribute (when present)
is compared against the beam length, then the `end_position` attribute
(when present).  A distributed load's `start_position` is never
compared directly (no such attribute check exists in the source). -/
def validate_load_positions (beam_length : ℚ) : List Load → Except String Unit
  | [] => Except.ok ()
  | l :: rest =>
      match posAttr l with
      | some p =>
          if p > beam_length then Except.error "Load position exceeds beam length"
          else
            match endPosAttr l with
            | some e =>
                if e > beam_length then
                  Except.error "Load end position exceeds beam length"
                else validate_load_positions beam_length rest
            | none => validate_load_positions beam_length rest
      | none =>
          match endPosAttr l with
          | some e =>
              if e > beam_length then
                Except.error "Load end position exceeds beam length"
              else validate_load_positions beam_length rest
          | none => validate_load_positions beam_length rest

structure AnalysisRequest where
  id : String
  timestamp : ℤ
  beam : BeamProperties
  supports : SupportConditions
  loads : List Load
  analysis_options : AnalysisOptions
deriving DecidableEq, Repr

/-- Construction of `AnalysisRequest` from already-validated parts:
`validate_support_positions` runs at the `supports` field, then the
`loads` field is checked for `min_items=1` and
`validate_load_positions`. -/
def mkAnalysisRequest (id : String) (timestamp : ℤ) (beam : BeamProperties)
    (supports : SupportConditions) (loads : List Load)
    (analysis_options : AnalysisOptions) : Except String AnalysisRequest :=
  match validate_support_positions beam.length supports.supports with
  | Except.error e => Except.error e
  | Except.ok _ =>
      if loads.length < 1 then
        Except.error "ensure this value has at least 1 items"
      else
        match validate_load_positions beam.length loads with
        | Except.error e => Except.error e
        | Except.ok _ =>
            Except.ok ⟨id, timestamp, beam, supports, loads, analysis_options⟩

/-! ## Result models (`beam_models.py` lines 204-264) -/

structure DataPoint where
  position : ℚ
  value : ℚ
  unit : String
deriving DecidableEq, Repr

structure Reaction where
  support_id : String
  position : ℚ
  vertical_force : ℚ
  horizontal_force : ℚ
  moment : ℚ
deriving DecidableEq, Repr

inductive CriticalPointType where
  | moment
  | shear
  | deflection
  | stress
deriving DecidableEq, Repr

inductive Severity where
  | low
  | medium
  | high
  | critical
deriving DecidableEq, Repr

structure CriticalPoint where
  position : ℚ
  type : CriticalPointType
  actual_value : ℚ
  allowable_value : ℚ
  utilization_ratio : ℚ
  severity : Severity
deriving DecidableEq, Repr

/-- Construction of `CriticalPoint` (`beam_models.py` lines 217-223):
`utilization_ratio` carries `ge=0, le=1`; no other field is
constrained. -/
def mkCriticalPoint (position : ℚ) (ty : CriticalPointType)
    (actual_value allowable_value utilization_ratio : ℚ) (severity : Severity) :
    Except String CriticalPoint :=
  if utilization_ratio < 0 then
    Except.error "ensure this value is greater than or equal to 0"
  else if utilization_ratio > 1 then
    Except.error "ensure this value is less than or equal to 1"
  else Except.ok ⟨position, ty, actual_value, allowable_value, utilization_ratio, severity⟩

structure SafetyAnalysis where
  is_structurally_safe : Bool
  safety_factor : ℚ
  critical_points : List CriticalPoint
  warnings : List String
  recommendations : List String
deriving DecidableEq, Repr

structure MaxValues where
  value : ℚ
  position : ℚ
deriving DecidableEq, Repr

/-! ## Safety Assessor (spec §4.6, modelled)

The code that fills `CriticalPoint` (`services/beam_calculator.py`) is
not among the sources; only the pydantic result models are. -/

/-- Modelled from the spec: the Safety Assessor of
`services/beam_calculator.py` is absent from the sources; per spec §4.6
the utilization ratio at a sample is the absolute actual value divided
by the allowable value, clamped to the interval from 0 to 1.  (In ℚ a
division by a zero allowable yields 0; the spec leaves that degenerate
case unstated.) -/
def utilization (actual allowable : ℚ) : ℚ :=
  min 1 (max 0 (|actual| / allowable))

/-- Modelled from the spec: severity buckets with the fixed documented
thresholds of §4.6 — below 0.5 low, below 0.75 medium, below 0.9 high,
at or above 0.9 critical. -/
def bucketSeverity (r : ℚ) : Severity :=
  if r < 1 / 2 then Severity.low
  else if r < 3 / 4 then Severity.medium
  else if r < 9 / 10 then Severity.high
  else Severity.critical

/-- Modelled from the spec: construction of one critical point by the
Safety Assessor — ratio from `utilization`, severity bucketed from that
ratio. -/
def assessPoint (position : ℚ) (ty : CriticalPointType) (actual allowable : ℚ) :
    CriticalPoint :=
  { position := position
    type := ty
    actual_value := actual
    allowable_value := allowable
    utilization_ratio := utilization actual allowable
    severity := bucketSeverity (utilization actual allowable) }

/-- Modelled from the spec: the Safety Assessor over a stress profile
(§4.6) — allowable stress is yield strength over the safety factor, a
point is assessed at every sample, `is_structurally_safe` holds exactly
when no sample's utilization ratio reaches 1, warnings cover high and
critical severities. -/
def assess (yield_strength safety_factor : ℚ) (stresses : List DataPoint) :
    SafetyAnalysis :=
  let allowable := yield_strength / safety_factor
  let cps := stresses.map (fun p => assessPoint p.position CriticalPointType.stress p.value allowable)
  let safe := cps.all (fun c => c.utilization_ratio < 1)
  { is_structurally_safe := safe
    safety_factor := safety_factor
    critical_points := cps.filter (fun c => c.severity ≠ Severity.low)
    warnings := (cps.filter (fun c => c.severity = Severity.high ∨ c.severity = Severity.critical)).map
      (fun c => "High stress utilization at position " ++ toString c.position)
    recommendations := if safe then [] else ["Reduce loads or increase the section size"] }

/-! ## Analysis pipeline (spec §4.2-§4.5, modelled)

The calculator (`services/beam_calculator.py`) and the validation
service are imported by `app/main.py` but are not among the sources.
The pipeline below is modelled from the spec: §4.2 equilibrium with the
upward-force / counter-clockwise-moment sign convention and trapezoidal
reduction of distributed loads, §4.3 superposition sampling, §4.4
double trapezoidal integration with boundary constants, §4.5 bending
stress from the extreme-fiber distance, §4.6 assessment.  Spec §9 flags
the statically indeterminate formulation as an open design point, so
those configurations end in a solver error here. -/

/-- Modelled from the spec: sign of a load direction under the §4.2
convention (upward force and counter-clockwise moment positive). -/
def dirSign : Direction → ℚ
  | Direction.up => 1
  | Direction.down => -1
  | Direction.clockwise => -1
  | Direction.counterclockwise => 1

/-- Modelled from the spec: trapezoidal resultant of a distributed load
(§4.2 — magnitude is the trapezoidal area of the intensity). -/
def trapezoidResultant (sm em sp ep : ℚ) : ℚ :=
  (sm + em) / 2 * (ep - sp)

/-- Modelled from the spec: centroid of the trapezoidal intensity
(§4.2).  In ℚ a zero total intensity makes the correction term 0. -/
def trapezoidCentroid (sm em sp ep : ℚ) : ℚ :=
  sp + (ep - sp) * (sm + 2 * em) / (3 * (sm + em))

/-- Modelled from the spec: signed vertical resultant of one load
(moment loads carry no vertical force). -/
def loadVerticalResultant : Load → ℚ
  | Load.point m _ d _ => dirSign d * m
  | Load.distributed sm em sp ep d => dirSign d * trapezoidResultant sm em sp ep
  | Load.moment _ _ _ => 0

/-- Modelled from the spec: signed moment of one load about the
reference position `a` (§4.2). -/
def loadMomentAbout (a : ℚ) : Load → ℚ
  | Load.point m p d _ => dirSign d * m * (p - a)
  | Load.distributed sm em sp ep d =>
      dirSign d * trapezoidResultant sm em sp ep * (trapezoidCentroid sm em sp ep - a)
  | Load.moment m _ d => dirSign d * m

/-- Modelled from the spec: the Reaction Solver (§4.2).  Determinate
cases (simply supported on two distinct supports, cantilever on one
fixed support) are solved from the planar equilibrium equations;
coincident supports are a singular system; the indeterminate cases are
the open design point of §9. -/
def solveReactions (beam_type : BeamType) (supports : List Support)
    (loads : List Load) : Except String (List Reaction) :=
  match beam_type, supports with
  | BeamType.simplySupported, [s1, s2] =>
      if s2.position = s1.position then
        Except.error "SolverError: singular support geometry"
      else
        let totalV := (loads.map loadVerticalResultant).sum
        let momentAboutA := (loads.map (loadMomentAbout s1.position)).sum
        let rb := -momentAboutA / (s2.position - s1.position)
        let ra := -totalV - rb
        Except.ok [⟨"support-1", s1.position, ra, 0, 0⟩, ⟨"support-2", s2.position, rb, 0, 0⟩]
  | BeamType.cantilever, [s] =>
      let totalV := (loads.map loadVerticalResultant).sum
      let momentAboutS := (loads.map (loadMomentAbout s.position)).sum
      Except.ok [⟨"support-1", s.position, -totalV, 0, -momentAboutS⟩]
  | _, _ =>
      Except.error "SolverError: indeterminate configuration left open by the design"

/-- Modelled from the spec: evenly spaced sample positions from 0 to
the beam length inclusive (§4.3). -/
def samplePositions (beam_length : ℚ) (n : ℕ) : List ℚ :=
  (List.range n).map (fun i => beam_length * i / ((n : ℚ) - 1))

/-- Modelled from the spec: shear contribution of one load at sample
position `x` (§4.3, left-continuous at point loads: positions ≤ x
contribute). -/
def loadShearAt (x : ℚ) : Load → ℚ
  | Load.point m p d _ => if p ≤ x then dirSign d * m else 0
  | Load.moment _ _ _ => 0
  | Load.distributed sm em sp ep d =>
      if x ≤ sp then 0
      else
        let xe := min x ep
        let wx := sm + (em - sm) * (xe - sp) / (ep - sp)
        dirSign d * trapezoidResultant sm wx sp xe

/-- Modelled from the spec: moment contribution of one load at sample
position `x` (§4.3 — forces give force times lever arm, applied moments
enter directly, distributed loads act through the partial resultant at
its centroid). -/
def loadMomentAt (x : ℚ) : Load → ℚ
  | Load.point m p d _ => if p ≤ x then dirSign d * m * (x - p) else 0
  | Load.moment m p d => if p ≤ x then dirSign d * m else 0
  | Load.distributed sm em sp ep d =>
      if x ≤ sp then 0
      else
        let xe := min x ep
        let wx := sm + (em - sm) * (xe - sp) / (ep - sp)
        dirSign d * trapezoidResultant sm wx sp xe * (x - trapezoidCentroid sm wx sp xe)

/-- Modelled from the spec: shear contribution of one reaction at `x`. -/
def reactionShearAt (x : ℚ) (r : Reaction) : ℚ :=
  if r.position ≤ x then r.vertical_force else 0

/-- Modelled from the spec: moment contribution of one reaction at `x`
(vertical force through its lever arm plus the reaction moment). -/
def reactionMomentAt (x : ℚ) (r : Reaction) : ℚ :=
  if r.position ≤ x then r.vertical_force * (x - r.position) + r.moment else 0

/-- Modelled from the spec: shear profile value at `x` by superposition
(§4.3). -/
def shearAt (loads : List Load) (reactions : List Reaction) (x : ℚ) : ℚ :=
  (loads.map (loadShearAt x)).sum + (reactions.map (reactionShearAt x)).sum

/-- Modelled from the spec: bending-moment profile value at `x` by
superposition (§4.3). -/
def momentAt (loads : List Load) (reactions : List Reaction) (x : ℚ) : ℚ :=
  (loads.map (loadMomentAt x)).sum + (reactions.map (reactionMomentAt x)).sum

/-- Modelled from the spec: cumulative trapezoidal integration (§4.4),
carrying the running integral from the previous sample. -/
def cumTrapAux (acc : ℚ) (prev : ℚ × ℚ) : List (ℚ × ℚ) → List (ℚ × ℚ)
  | [] => []
  | q :: rest =>
      let a := acc + (prev.2 + q.2) / 2 * (q.1 - prev.1)
      (q.1, a) :: cumTrapAux a q rest

/-- Modelled from the spec: cumulative trapezoidal integral of sampled
values, zero at the first sample. -/
def cumulative (pts : List (ℚ × ℚ)) : List (ℚ × ℚ) :=
  match pts with
  | [] => []
  | p :: rest => (p.1, 0) :: cumTrapAux 0 p rest

/-- Modelled from the spec: piecewise-linear evaluation of a sampled
profile, used to read the raw integrals at the support positions when
fixing the integration constants (§4.4). -/
def interpAt : List (ℚ × ℚ) → ℚ → ℚ
  | [], _ => 0
  | [q], _ => q.2
  | q0 :: q1 :: rest, x =>
      if x ≤ q1.1 then q0.2 + (q1.2 - q0.2) * (x - q0.1) / (q1.1 - q0.1)
      else interpAt (q1 :: rest) x

/-- Modelled from the spec: the Deflection Integrator (§4.4) — curvature
moment over E·I, two cumulative trapezoidal integrations, integration
constants from v = 0 at both supports (simply supported) or θ = 0 and
v = 0 at the fixed end (cantilever); zero stiffness is a numerical
error. -/
def integrateDeflection (beam_type : BeamType) (supports : List Support)
    (elastic_modulus moment_of_inertia : ℚ) (moments : List DataPoint) :
    Except String (List DataPoint) :=
  if elastic_modulus * moment_of_inertia = 0 then
    Except.error "NumericalError: zero stiffness"
  else
    let curvature := moments.map (fun p => (p.position, p.value / (elastic_modulus * moment_of_inertia)))
    let slopeRaw := cumulative curvature
    let deflRaw := cumulative slopeRaw
    match beam_type, supports with
    | BeamType.simplySupported, [s1, s2] =>
        if s2.position = s1.position then
          Except.error "NumericalError: singular boundary system"
        else
          let c1 := (interpAt deflRaw s1.position - interpAt deflRaw s2.position) /
            (s2.position - s1.position)
          let c2 := -interpAt deflRaw s1.position - c1 * s1.position
          Except.ok (deflRaw.map (fun q => ⟨q.1, q.2 + c1 * q.1 + c2, "m"⟩))
    | BeamType.cantilever, [s] =>
        let c1 := -interpAt slopeRaw s.position
        let c2 := -interpAt deflRaw s.position - c1 * s.position
        Except.ok (deflRaw.map (fun q => ⟨q.1, q.2 + c1 * q.1 + c2, "m"⟩))
    | _, _ => Except.error "NumericalError: unsupported boundary configuration"

/-- Association-list lookup used for the custom cross-section
properties and, later, for the configuration client's maps. -/
def assocGet (l : List (String × ℚ)) (k : String) : Option ℚ :=
  (l.find? (fun p => p.1 = k)).map Prod.snd

/-- Modelled from the spec: extreme-fiber distance of a cross-section
(§4.5) — half the height for rectangular (and i-beam) sections, half
the diameter for circular ones, a supplied property for custom ones;
missing data is a configuration error.  The spec does not name the
custom property key; `extreme_fiber_distance` stands for it. -/
def extremeFiber (cs : CrossSection) : Except String ℚ :=
  match cs.type with
  | CrossSectionType.rectangular =>
      match cs.height with
      | some h => Except.ok (h / 2)
      | none => Except.error "ConfigError: missing height"
  | CrossSectionType.iBeam =>
      match cs.height with
      | some h => Except.ok (h / 2)
      | none => Except.error "ConfigError: missing height"
  | CrossSectionType.circular =>
      match cs.diameter with
      | some d => Except.ok (d / 2)
      | none => Except.error "ConfigError: missing diameter"
  | CrossSectionType.custom =>
      match cs.custom_properties with
      | some props =>
          match assocGet props "extreme_fiber_distance" with
          | some c => Except.ok c
          | none => Except.error "ConfigError: custom section misses the extreme-fiber property"
      | none => Except.error "ConfigError: custom section misses the extreme-fiber property"

/-- Modelled from the spec: per-quantity maximum (value and position) of
a profile, by absolute value. -/
def pickMax : List DataPoint → MaxValues
  | [] => ⟨0, 0⟩
  | p :: rest =>
      rest.foldl (fun acc q => if |q.value| > |acc.value| then ⟨q.value, q.position⟩ else acc)
        ⟨p.value, p.position⟩

structure AnalysisResults where
  reactions : List Reaction
  moments : List DataPoint
  shear_forces : List DataPoint
  deflections : List DataPoint
  stresses : List DataPoint
  max_moment : MaxValues
  max_shear : MaxValues
  max_deflection : MaxValues
  max_stress : MaxValues
  safety_check : SafetyAnalysis
  method : String
  convergence : Bool
deriving DecidableEq, Repr

/-- Modelled from the spec: the whole core operation `analyze` (§6) —
reactions, shear/moment profiles at the sampled positions, deflection,
bending stress, maxima and safety assessment, composed strictly
forward.  It is a pure function of the request's beam, supports, loads
and options; the `timestamp` field (a `datetime.now` artifact of the
boundary layer) is never read. -/
def analyze (r : AnalysisRequest) : Except String AnalysisResults := do
  let n := r.analysis_options.number_of_points.toNat
  let xs := samplePositions r.beam.length n
  let reactions ← solveReactions r.supports.type r.supports.supports r.loads
  let shear := xs.map (fun x => DataPoint.mk x (shearAt r.loads reactions x) "N")
  let moments := xs.map (fun x => DataPoint.mk x (momentAt r.loads reactions x) "N⋅m")
  let deflections ← integrateDeflection r.supports.type r.supports.supports
    r.beam.elastic_modulus r.beam.moment_of_inertia moments
  let c ← extremeFiber r.beam.cross_section
  let stresses := moments.map
    (fun p => DataPoint.mk p.position (p.value * c / r.beam.moment_of_inertia) "Pa")
  let sf := r.analysis_options.safety_factor.getD (3 / 2)
  let safety := assess r.beam.material.yield_strength sf stresses
  Except.ok
    { reactions := reactions
      moments := moments
      shear_forces := shear
      deflections := deflections
      stresses := stresses
      max_moment := pickMax moments
      max_shear := pickMax shear
      max_deflection := pickMax deflections
      max_stress := pickMax stresses
      safety_check := safety
      method := "superposition"
      convergence := true }

/-! ## Configuration client (`client/python/mcp_client.py` lines 74-130)

`MCPClient.get_secret` layers the process environment, a local JSON
file, and a remote HTTP endpoint.  The environment is modelled as an
association list of variables; the local file, when present and parsed
to a non-empty JSON object, as a `LocalConfig` whose optional `secrets`
member and remaining top-level members map names to string values (the
only shape the claim concerns; `_read_local` returning nothing, a
non-dict, or a falsy empty dict are all the `none` case).  The network
is modelled as a `RemoteWorld` oracle: `none` stands for an exception
or a non-200 status (the code swallows both), `some v` for a 200
response whose JSON body carries `value` (or `access_token`) `v`. -/

abbrev Env := List (String × String)

def envGet (env : Env) (k : String) : Option String :=
  (env.find? (fun p => p.1 = k)).map Prod.snd

structure ClientConfig where
  url : Option String
  token : Option String

structure LocalConfig where
  secrets : Option (List (String × String))
  top : List (String × String)

structure RemoteWorld where
  directSecret : Option (Option String)
  tokenExchange : Option (Option String)
  jwtSecret : String → Option (Option String)

/-- The local-file branch of `get_secret` (`mcp_client.py` lines
82-89): a hit in the `secrets` sub-object wins; otherwise a top-level
key of the same name; otherwise nothing. -/
def localLookup (lc : LocalConfig) (name : String) : Option String :=
  match lc.secrets with
  | some s =>
      match envGet s name with
      | some v => some v
      | none => envGet lc.top name
  | none => envGet lc.top name

/-- The remote branch of `get_secret` (`mcp_client.py` lines 91-130):
both the direct attempt and the token exchange are guarded by the
client token being configured; a 200 on the direct attempt returns its
`value` member immediately (which may itself be absent, i.e. `none`);
otherwise a successful token exchange that yields an access token leads
to one more attempt; every other path ends in `none`. -/
def fetchRemoteSecret (token : Option String) (w : RemoteWorld) : Option String :=
  match token with
  | none => none
  | some _ =>
      match w.directSecret with
      | some v => v
      | none =>
          match w.tokenExchange with
          | some (some jwt) =>
              match w.jwtSecret jwt with
              | some v => v
              | none => none
          | _ => none

/-- `MCPClient.get_secret` (`mcp_client.py` lines 74-130): environment
by exact name, then by upper-cased name, then the local file, then —
only when a URL is configured — the remote endpoint. -/
def get_secret (cfg : ClientConfig) (env : Env) (localFile : Option LocalConfig)
    (w : RemoteWorld) (name : String) : Option String :=
  match envGet env name with
  | some v => some v
  | none =>
      match envGet env name.toUpper with
      | some v => some v
      | none =>
          match localFile.bind (fun lc => localLookup lc name) with
          | some v => some v
          | none =>
              match cfg.url with
              | none => none
              | some _ => fetchRemoteSecret cfg.token w

/-! ## Helper lemmas -/

@[simp] theorem except_isOk_ok {ε α : Type} (a : α) :
    (Except.ok a : Except ε α).isOk = true := rfl

@[simp] theorem except_isOk_error {ε α : Type} (e : ε) :
    (Except.error e : Except ε α).isOk = false := rfl

/-! ## Claims -/

/-- C1: for every `Support` that is successfully constructed, the
reaction-capability flags are fully determined by the support kind —
pin gives vertical and horizontal, roller gives vertical only, fixed
gives all three — whatever flag combination the caller supplied. -/
theorem c1_support_flags_determined_by_kind (position : ℚ) (ty : SupportType)
    (r : SupportReactions) (s : Support)
    (h : mkSupport position ty r = Except.ok s) :
    (ty = SupportType.pin → s.reactions = ⟨true, true, false⟩) ∧
    (ty = SupportType.roller → s.reactions = ⟨true, false, false⟩) ∧
    (ty = SupportType.fixed → s.reactions = ⟨true, true, true⟩) := by
  unfold mkSupport at h
  split at h
  · simp at h
  · injection h with h'
    subst h'
    cases ty <;> simp [validate_reactions]

/-- Witness for C1: a pin support constructed with every flag supplied
wrong still carries the pin flags. -/
theorem c1_witness :
    (⟨0, SupportType.pin, ⟨true, true, false⟩⟩ : Support).reactions =
      ⟨true, true, false⟩ :=
  (c1_support_flags_determined_by_kind 0 SupportType.pin ⟨false, false, true⟩
    ⟨0, SupportType.pin, ⟨true, true, false⟩⟩ rfl).1 rfl

/-- C2 counterexample: an empty support list under the `continuous`
beam type violates none of the three support-count/type rules the claim
lists, yet construction is rejected (the `supports` field carries
`min_items=1`). -/
theorem c2_counterexample :
    (BeamType.continuous ≠ BeamType.simplySupported ∧
     BeamType.continuous ≠ BeamType.cantilever ∧
     BeamType.continuous ≠ BeamType.fixedFixed) ∧
    (mkSupportConditions BeamType.continuous ([] : List Support)).isOk = false := by
  exact ⟨by decide, rfl⟩

/-- C2 (amended): constructing `SupportConditions` succeeds exactly
when the support list is non-empty, a simply-supported or fixed-fixed
beam type comes with exactly 2 supports, and a cantilever comes with
exactly one support of kind fixed. -/
theorem c2_support_count_rules (ty : BeamType) (ss : List Support) :
    (mkSupportConditions ty ss).isOk = true ↔
      (ss ≠ [] ∧
       (ty = BeamType.simplySupported → ss.length = 2) ∧
       (ty = BeamType.cantilever → ∃ s, ss = [s] ∧ s.type = SupportType.fixed) ∧
       (ty = BeamType.fixedFixed → ss.length = 2)) := by
  rcases ss with _ | ⟨a, t⟩
  · simp [mkSupportConditions]
  · have hlen : ¬ (a :: t).length < 1 := by simp
    cases ty
    case simplySupported =>
      by_cases h2 : t.length = 1
      · simp [mkSupportConditions, validate_supports, hlen, h2]
      · simp [mkSupportConditions, validate_supports, hlen, h2]
    case cantilever =>
      rcases t with _ | ⟨b, u⟩
      · by_cases hf : a.type = SupportType.fixed
        · simp [mkSupportConditions, validate_supports, hf]
        · simp [mkSupportConditions, validate_supports, hf]
      · simp [mkSupportConditions, validate_supports, hlen]
    case fixedFixed =>
      by_cases h2 : t.length = 1
      · simp [mkSupportConditions, validate_supports, hlen, h2]
      · simp [mkSupportConditions, validate_supports, hlen, h2]
    case fixedPinned =>
      simp [mkSupportConditions, validate_supports, hlen]
    case continuous =>
      simp [mkSupportConditions, validate_supports, hlen]

/-- Witness for C2: a cantilever with one fixed support is accepted. -/
theorem c2_witness :
    (mkSupportConditions BeamType.cantilever
      [⟨0, SupportType.fixed, ⟨true, true, true⟩⟩]).isOk = true :=
  (c2_support_count_rules BeamType.cantilever
    [⟨0, SupportType.fixed, ⟨true, true, true⟩⟩]).mpr
    ⟨by simp, by simp, fun _ => ⟨⟨0, SupportType.fixed, ⟨true, true, true⟩⟩, rfl, rfl⟩,
      by simp⟩

/-- The position-bound the source enforces on one load: the `position`
attribute of point and moment loads, the `end_position` attribute of
distributed loads (the attributes `validate_load_positions` probes). -/
def loadWithinLength (L : ℚ) : Load → Prop
  | Load.point _ p _ _ => p ≤ L
  | Load.moment _ p _ => p ≤ L
  | Load.distributed _ _ _ ep _ => ep ≤ L

instance loadWithinLengthDec (L : ℚ) (l : Load) : Decidable (loadWithinLength L l) :=
  match l with
  | Load.point _ p _ _ => inferInstanceAs (Decidable (p ≤ L))
  | Load.moment _ p _ => inferInstanceAs (Decidable (p ≤ L))
  | Load.distributed _ _ _ ep _ => inferInstanceAs (Decidable (ep ≤ L))

theorem validate_support_positions_isOk (L : ℚ) (ss : List Support) :
    (validate_support_positions L ss).isOk = true ↔ ∀ s ∈ ss, s.position ≤ L := by
  induction ss with
  | nil => simp [validate_support_positions]
  | cons a t ih =>
      by_cases h : a.position > L
      · have h' : ¬ a.position ≤ L := not_le.mpr h
        simp [validate_support_positions, h, h']
      · have h' : a.position ≤ L := not_lt.mp h
        simp [validate_support_positions, h, h', ih]

theorem validate_load_positions_isOk (L : ℚ) (ls : List Load) :
    (validate_load_positions L ls).isOk = true ↔ ∀ l ∈ ls, loadWithinLength L l := by
  induction ls with
  | nil => simp [validate_load_positions]
  | cons l t ih =>
      cases l with
      | point m p d a =>
          by_cases h : p > L
          · have h' : ¬ p ≤ L := not_le.mpr h
            simp [validate_load_positions, posAttr, endPosAttr, h, h', loadWithinLength]
          · have h' : p ≤ L := not_lt.mp h
            simp [validate_load_positions, posAttr, endPosAttr, h, h', ih, loadWithinLength]
      | moment m p d =>
          by_cases h : p > L
          · have h' : ¬ p ≤ L := not_le.mpr h
            simp [validate_load_positions, posAttr, endPosAttr, h, h', loadWithinLength]
          · have h' : p ≤ L := not_lt.mp h
            simp [validate_load_positions, posAttr, endPosAttr, h, h', ih, loadWithinLength]
      | distributed sm em sp ep d =>
          by_cases h : ep > L
          · have h' : ¬ ep ≤ L := not_le.mpr h
            simp [validate_load_positions, posAttr, endPosAttr, h, h', loadWithinLength]
          · have h' : ep ≤ L := not_lt.mp h
            simp [validate_load_positions, posAttr, endPosAttr, h, h', ih, loadWithinLength]

/-- C3: for a non-empty load list, constructing an `AnalysisRequest`
succeeds exactly when every support position is within the beam length
and every load satisfies the source's position-bound checks (the
`position` attribute of point and moment loads and the `end_position`
attribute of distributed loads are compared against the beam length);
any violation fails construction, before any numeric stage can run. -/
theorem c3_position_bounds (id : String) (ts : ℤ) (beam : BeamProperties)
    (sc : SupportConditions) (loads : List Load) (opts : AnalysisOptions)
    (hne : loads ≠ []) :
    (mkAnalysisRequest id ts beam sc loads opts).isOk = true ↔
      ((∀ s ∈ sc.supports, s.position ≤ beam.length) ∧
       (∀ l ∈ loads, loadWithinLength beam.length l)) := by
  have hlen : ¬ loads.length < 1 := by
    cases loads with
    | nil => exact absurd rfl hne
    | cons a t => simp
  unfold mkAnalysisRequest
  cases hsv : validate_support_positions beam.length sc.supports with
  | error e =>
      have hA : ¬ ∀ s ∈ sc.supports, s.position ≤ beam.length := by
        rw [← validate_support_positions_isOk beam.length sc.supports, hsv]
        simp
      simp [hA]
  | ok u =>
      have hA : ∀ s ∈ sc.supports, s.position ≤ beam.length := by
        rw [← validate_support_positions_isOk beam.length sc.supports, hsv]
        simp
      rw [if_neg hlen]
      cases hlv : validate_load_positions beam.length loads with
      | error e =>
          have hB : ¬ ∀ l ∈ loads, loadWithinLength beam.length l := by
            rw [← validate_load_positions_isOk beam.length loads, hlv]
            simp
          simp [hA, hB]
      | ok u2 =>
          have hB : ∀ l ∈ loads, loadWithinLength beam.length l := by
            rw [← validate_load_positions_isOk beam.length loads, hlv]
            simp
          exact ⟨fun _ => ⟨hA, hB⟩, fun _ => rfl⟩

/-- Witness for C3: a 4 m simply-supported beam with a central point
load and both supports in range is accepted. -/
theorem c3_witness :
    (mkAnalysisRequest "req-1" 0
      ⟨"b1", "beam", 4, 200, 1,
        ⟨CrossSectionType.rectangular, some 1, some 2, none, none⟩,
        ⟨"steel", 7850, 250⟩⟩
      ⟨BeamType.simplySupported,
        [⟨0, SupportType.pin, ⟨true, true, false⟩⟩,
         ⟨4, SupportType.roller, ⟨true, false, false⟩⟩]⟩
      [Load.point 1000 2 Direction.down 0]
      ⟨100, some (3 / 2)⟩).isOk = true :=
  (c3_position_bounds "req-1" 0
      ⟨"b1", "beam", 4, 200, 1,
        ⟨CrossSectionType.rectangular, some 1, some 2, none, none⟩,
        ⟨"steel", 7850, 250⟩⟩
      ⟨BeamType.simplySupported,
        [⟨0, SupportType.pin, ⟨true, true, false⟩⟩,
         ⟨4, SupportType.roller, ⟨true, false, false⟩⟩]⟩
      [Load.point 1000 2 Direction.down 0]
      ⟨100, some (3 / 2)⟩ (by simp)).mpr (by decide)

/-- C4: given a non-negative start position (its own field constraint),
constructing a `DistributedLoad` succeeds exactly when the end position
is strictly greater than the start position; in particular an end
position at or below the start position is rejected at construction. -/
theorem c4_distributed_positions (sm em sp ep : ℚ) (d : Direction) (hsp : 0 ≤ sp) :
    (mkDistributedLoad sm em sp ep d).isOk = true ↔ sp < ep := by
  unfold mkDistributedLoad
  rw [if_neg (not_lt.mpr hsp)]
  by_cases h2 : ep < 0
  · have h3 : ¬ sp < ep := by linarith
    simp [h2, h3]
  · rw [if_neg h2]
    by_cases h4 : ep ≤ sp
    · simp [h4, not_lt.mpr h4]
    · simp [h4, not_le.mp h4]

/-- Witness for C4: a uniform 5 N/m load from 0 m to 3 m is accepted. -/
theorem c4_witness :
    (mkDistributedLoad 5 5 0 3 Direction.down).isOk = true :=
  (c4_distributed_positions 5 5 0 3 Direction.down (le_refl 0)).mpr (by norm_num)

/-- C5: the Safety Assessor (modelled from the spec, the calculator
sources being absent) gives every assessed point a utilization ratio
equal to the absolute actual value over the allowable value clamped to
the interval from 0 to 1, with the severity bucketed from that ratio by
the fixed thresholds; and every `CriticalPoint` the result model
accepts has its ratio between 0 and 1 (the model's own field bounds). -/
theorem c5_critical_point_utilization (pos : ℚ) (ty : CriticalPointType)
    (actual allowable : ℚ) :
    ((assessPoint pos ty actual allowable).utilization_ratio =
        min 1 (max 0 (|actual| / allowable)) ∧
     0 ≤ (assessPoint pos ty actual allowable).utilization_ratio ∧
     (assessPoint pos ty actual allowable).utilization_ratio ≤ 1 ∧
     (assessPoint pos ty actual allowable).severity =
        bucketSeverity ((assessPoint pos ty actual allowable).utilization_ratio)) ∧
    (∀ (p : ℚ) (t : CriticalPointType) (a al ur : ℚ) (sev : Severity)
       (cp : CriticalPoint),
       mkCriticalPoint p t a al ur sev = Except.ok cp →
       0 ≤ cp.utilization_ratio ∧ cp.utilization_ratio ≤ 1) := by
  constructor
  · refine ⟨rfl, ?_, ?_, rfl⟩
    · show (0 : ℚ) ≤ min 1 (max 0 (|actual| / allowable))
      exact le_min zero_le_one (le_max_left 0 _)
    · show min 1 (max 0 (|actual| / allowable)) ≤ 1
      exact min_le_left 1 _
  · intro p t a al ur sev cp h
    unfold mkCriticalPoint at h
    split at h
    next h1 => simp at h
    next h1 =>
      split at h
      next h2 => simp at h
      next h2 =>
        injection h with h'
        subst h'
        exact ⟨le_of_not_lt h1, le_of_not_lt h2⟩

/-- Witness for C5: a ratio of 0 passes the model's field bounds, and
the assessed point at actual 5 against allowable 10 sits in the medium
bucket with ratio one half. -/
theorem c5_witness :
    0 ≤ (⟨1, CriticalPointType.stress, 5, 10, 0, Severity.low⟩ : CriticalPoint).utilization_ratio ∧
    (⟨1, CriticalPointType.stress, 5, 10, 0, Severity.low⟩ : CriticalPoint).utilization_ratio ≤ 1 :=
  (c5_critical_point_utilization 0 CriticalPointType.stress 0 1).2
    1 CriticalPointType.stress 5 10 0 Severity.low
    ⟨1, CriticalPointType.stress, 5, 10, 0, Severity.low⟩ rfl

/-- C6: the `ne=0` written on the `magnitude` fields of `PointLoad` and
`MomentLoad` is not a pydantic constraint keyword and is never
enforced, so a zero-magnitude point load and a zero-magnitude moment
load are both accepted at construction — against the documented
`magnitude ≠ 0` invariant. -/
theorem c6_zero_magnitude_accepted :
    mkPointLoad 0 1 Direction.down 0 =
      Except.ok (Load.point 0 1 Direction.down 0) ∧
    mkMomentLoad 0 1 Direction.clockwise =
      Except.ok (Load.moment 0 1 Direction.clockwise) := by
  exact ⟨rfl, rfl⟩

/-- C7 counterexample: `safety_factor` is `Optional`, so an explicit
null is accepted and stored — the constructed options then carry no
safety factor at all and the claimed invariant "safety_factor is at
least 1.0" does not hold of them. -/
theorem c7_counterexample :
    mkAnalysisOptions (some 100) (some none) =
      Except.ok ⟨100, none⟩ := by
  exact rfl

/-- C7 (amended): every successfully constructed `AnalysisOptions` has
`number_of_points` between 10 and 1000; a stored numeric
`safety_factor` is at least 1 and omitting the field stores the default
1.5, but an explicitly supplied null is accepted and stored as null;
conversely every in-range input is accepted. -/
theorem c7_options_bounds (np : Option ℤ) (sf : Option (Option ℚ)) :
    (∀ o, mkAnalysisOptions np sf = Except.ok o →
       (10 ≤ o.number_of_points ∧ o.number_of_points ≤ 1000) ∧
       (∀ v, o.safety_factor = some v → 1 ≤ v) ∧
       (sf = none → o.safety_factor = some (3 / 2)) ∧
       (sf = some none → o.safety_factor = none)) ∧
    ((∀ n, np = some n → 10 ≤ n ∧ n ≤ 1000) →
     (∀ v, sf = some (some v) → 1 ≤ v) →
     (mkAnalysisOptions np sf).isOk = true) := by
  constructor
  · intro o h
    rcases sf with _ | (_ | v)
    · simp only [mkAnalysisOptions] at h
      split_ifs at h with h1 h2 <;> injection h with h'
      have hnum : o.number_of_points = np.getD 100 := by rw [← h']
      have hsf : o.safety_factor = some (3 / 2) := by rw [← h']
      refine ⟨by rw [hnum]; omega, ?_, fun _ => hsf, by simp⟩
      intro u hu
      rw [hsf] at hu
      injection hu with hu'
      rw [← hu']
      norm_num
    · simp only [mkAnalysisOptions] at h
      split_ifs at h with h1 h2 <;> injection h with h'
      have hnum : o.number_of_points = np.getD 100 := by rw [← h']
      have hsf : o.safety_factor = none := by rw [← h']
      exact ⟨by rw [hnum]; omega, by simp [hsf], by simp, fun _ => hsf⟩
    · simp only [mkAnalysisOptions] at h
      split_ifs at h with h1 h2 h3 <;> injection h with h'
      have hnum : o.number_of_points = np.getD 100 := by rw [← h']
      have hsf : o.safety_factor = some v := by rw [← h']
      refine ⟨by rw [hnum]; omega, ?_, by simp, by simp⟩
      intro u hu
      rw [hsf] at hu
      injection hu with hu'
      rw [← hu']
      exact le_of_not_lt h3
  · intro hnp hsf
    have hn1 : ¬ (np.getD 100) < 10 := by
      rcases np with _ | n
      · simp
      · have := hnp n rfl
        simp only [Option.getD_some]
        omega
    have hn2 : ¬ (np.getD 100) > 1000 := by
      rcases np with _ | n
      · simp
      · have := hnp n rfl
        simp only [Option.getD_some]
        omega
    rcases sf with _ | (_ | v)
    · simp only [mkAnalysisOptions]
      rw [if_neg hn1, if_neg hn2]
      rfl
    · simp only [mkAnalysisOptions]
      rw [if_neg hn1, if_neg hn2]
      rfl
    · have hv : ¬ v < 1 := not_lt.mpr (hsf v rfl)
      simp only [mkAnalysisOptions]
      rw [if_neg hn1, if_neg hn2, if_neg hv]
      rfl

/-- Witness for C7 (amended): 500 sample points and a safety factor of
2 are accepted. -/
theorem c7_witness :
    (mkAnalysisOptions (some 500) (some (some 2))).isOk = true :=
  (c7_options_bounds (some 500) (some (some 2))).2
    (fun n hn => by
      obtain rfl : (500 : ℤ) = n := by simpa using hn
      omega)
    (fun v hv => by
      obtain rfl : (2 : ℚ) = v := by simpa using hv
      norm_num)

/-- C8: because the dimension validators run only on supplied values,
a rectangular cross-section with `width` and `height` omitted (and a
circular one with `diameter` omitted) is accepted with the missing
dimensions stored as null, against the documented requirement; an
explicitly supplied null is what the validators actually reject, and
fully supplied dimensions pass. -/
theorem c8_missing_dimension_accepted :
    mkCrossSection CrossSectionType.rectangular none none none none =
      Except.ok ⟨CrossSectionType.rectangular, none, none, none, none⟩ ∧
    mkCrossSection CrossSectionType.circular none none none none =
      Except.ok ⟨CrossSectionType.circular, none, none, none, none⟩ ∧
    (mkCrossSection CrossSectionType.rectangular (some none) (some none) none none).isOk
      = false ∧
    (mkCrossSection CrossSectionType.circular none none (some none) none).isOk = false ∧
    (mkCrossSection CrossSectionType.rectangular (some (some 1)) (some (some 2)) none
      none).isOk = true ∧
    (mkCrossSection CrossSectionType.circular none none (some (some 1)) none).isOk
      = true := by
  exact ⟨rfl, rfl, rfl, rfl, rfl, rfl⟩

/-- C9: the analysis core (modelled from the spec, the calculator
sources being absent) is a pure function of the request's beam,
supports, loads and options: running `analyze` twice on the same
request gives the same outcome — the same error or a result with
identical data-point sequences — and the outcome does not depend on
the request's arrival timestamp (the only constructed-afresh field of
two otherwise identical requests). -/
theorem c9_analyze_deterministic (r : AnalysisRequest) (t1 t2 : ℤ) :
    analyze { r with timestamp := t1 } = analyze { r with timestamp := t2 } ∧
    analyze r = analyze r := by
  exact ⟨rfl, rfl⟩

/-- C10: `MCPClient.get_secret` resolves a secret from the environment
by exact name first, then by upper-cased name, then from the local
config file with the `secrets` sub-object taking precedence over a
top-level key, then from the remote endpoint; it returns nothing —
rather than failing — when no URL is configured or when every remote
attempt fails. -/
theorem c10_get_secret_resolution (cfg : ClientConfig) (env : Env)
    (localFile : Option LocalConfig) (w : RemoteWorld) (name : String) :
    (∀ v, envGet env name = some v → get_secret cfg env localFile w name = some v) ∧
    (envGet env name = none →
      ∀ v, envGet env name.toUpper = some v →
        get_secret cfg env localFile w name = some v) ∧
    (envGet env name = none → envGet env name.toUpper = none →
      ∀ lc v, localFile = some lc → localLookup lc name = some v →
        get_secret cfg env localFile w name = some v) ∧
    (∀ (lc : LocalConfig) s v, lc.secrets = some s → envGet s name = some v →
      localLookup lc name = some v) ∧
    (envGet env name = none → envGet env name.toUpper = none →
      localFile.bind (fun lc => localLookup lc name) = none →
      cfg.url = none → get_secret cfg env localFile w name = none) ∧
    (envGet env name = none → envGet env name.toUpper = none →
      localFile.bind (fun lc => localLookup lc name) = none →
      w.directSecret = none →
      (∀ jwt, w.tokenExchange = some (some jwt) → w.jwtSecret jwt = none) →
      get_secret cfg env localFile w name = none) := by
  refine ⟨?_, ?_, ?_, ?_, ?_, ?_⟩
  · intro v hv
    unfold get_secret
    rw [hv]
  · intro h1 v hv
    unfold get_secret
    rw [h1, hv]
  · intro h1 h2 lc v hlc hl
    unfold get_secret
    rw [h1, h2, hlc]
    simp [hl]
  · intro lc s v hs hv
    simp [localLookup, hs, hv]
  · intro h1 h2 h3 hurl
    unfold get_secret
    rw [h1, h2, h3, hurl]
  · intro h1 h2 h3 hd hj
    unfold get_secret
    rw [h1, h2, h3]
    cases hurl : cfg.url with
    | none => rfl
    | some u =>
        unfold fetchRemoteSecret
        cases htok : cfg.token with
        | none => rfl
        | some tok =>
            rw [hd]
            cases hte : w.tokenExchange with
            | none => rfl
            | some jo =>
                cases jo with
                | none => rfl
                | some jwt =>
                    simp [hj jwt hte]

/-- Witness for C10: a secret present in the environment under its
exact name is returned from the environment. -/
theorem c10_witness :
    get_secret ⟨none, none⟩ [("API_KEY", "v1")] none
      ⟨none, none, fun _ => none⟩ "API_KEY" = some "v1" :=
  (c10_get_secret_resolution ⟨none, none⟩ [("API_KEY", "v1")] none
    ⟨none, none, fun _ => none⟩ "API_KEY").1 "v1" rfl
